import Mathlib

/-!
Shallow embedding of `fileLogger.go` (package fileLogger): a rolling file
logger that rotates either by file size (keeping up to `fileCount` numbered
backups) or daily (keeping date-stamped backups).  The file system is
modelled as an association list from paths to byte sizes; the open file
handle and the `log.Logger` line-writer are modelled as generation
counters; wall-clock time is modelled at (day, time-of-day) resolution, so
that the `time.Parse(DATEFORMAT, time.Now().Format(DATEFORMAT))` truncation
in the source becomes an explicit truncation to day resolution.
-/

namespace FileLogger

/-- `SplitType` from the source: `SplitType_Size` / `SplitType_Daily`. -/
inductive SplitType where
  | size : SplitType
  | daily : SplitType
deriving DecidableEq, Repr

/-- `DEFAULT_LOG_SCAN = 60` from the source's const block. -/
def DEFAULT_LOG_SCAN : Nat := 60

/-- `KB UNIT = 1 << (iota * 10)` with `iota = 1` in the source const block. -/
def KB : Nat := 1 <<< (1 * 10)

/-- `MB` continues the const block with `iota = 2`. -/
def MB : Nat := 1 <<< (2 * 10)

/-- `GB` continues the const block with `iota = 3`. -/
def GB : Nat := 1 <<< (3 * 10)

/-- `TB` continues the const block with `iota = 4`. -/
def TB : Nat := 1 <<< (4 * 10)

/-- A point in time, at the resolution the source cares about: a calendar
day index plus a time-of-day.  `time.Now()` yields an arbitrary `GoTime`;
`time.Parse(DATEFORMAT, t.Format(DATEFORMAT))` truncates it to day
resolution. -/
structure GoTime where
  day : Nat
  tod : Nat
deriving DecidableEq, Repr

/-- The `t, _ := time.Parse(DATEFORMAT, time.Now().Format(DATEFORMAT))`
idiom: format with `DATEFORMAT = "2006-01-02"` then re-parse, which zeroes
the time-of-day and keeps the calendar day. -/
def truncateToDay (t : GoTime) : GoTime := ⟨t.day, 0⟩

/-- `time.Time.After`: strict ordering, lexicographic on (day, tod). -/
def GoTime.after (a b : GoTime) : Bool :=
  decide (b.day < a.day) || (decide (a.day = b.day) && decide (b.tod < a.tod))

/-- The file system visible to the logger: each entry is a path paired with
the file's current size in bytes.  Paths are unique in a well-formed file
system; the operations below preserve that. -/
structure FS where
  entries : List (String × Nat)
deriving DecidableEq, Repr

/-- Modelled from the spec: the repository's util helper `isExist` (not
under src/) reports whether a path exists on disk. -/
def isExist (fs : FS) (p : String) : Bool :=
  fs.entries.any (fun e => e.1 == p)

/-- Modelled from the spec: the repository's util helper `fileSize` (not
under src/) returns the current on-disk size of the file at `p` in bytes,
and 0 when the file does not exist. -/
def fileSize (fs : FS) (p : String) : Nat :=
  match fs.entries.find? (fun e => e.1 == p) with
  | some e => e.2
  | none => 0

/-- `os.Remove`: drop the entry at `p`. -/
def removeFile (fs : FS) (p : String) : FS :=
  ⟨fs.entries.filter (fun e => e.1 != p)⟩

/-- `os.Rename src dst`: when `src` exists, move its entry to `dst`
(silently replacing any file already at `dst`); when `src` is missing the
call fails and the file system is unchanged. -/
def renameFile (fs : FS) (src dst : String) : FS :=
  if isExist fs src then
    ⟨(removeFile (removeFile fs dst) src).entries ++ [(dst, fileSize fs src)]⟩
  else fs

/-- `os.Create p`: create or truncate the file at `p` to size 0. -/
def createFile (fs : FS) (p : String) : FS :=
  ⟨(removeFile fs p).entries ++ [(p, 0)]⟩

/-- `os.OpenFile(p, O_RDWR|O_APPEND|O_CREATE, 0666)`: create the file empty
when missing, keep it (and its size) when present. -/
def openAppendCreate (fs : FS) (p : String) : FS :=
  if isExist fs p then fs else ⟨fs.entries ++ [(p, 0)]⟩

/-- Modelled from the spec: the repository's util helper `joinFilePath`
(not under src/) joins a directory and a file name into one path. -/
def joinFilePath (dir name : String) : String := dir ++ "/" ++ name

/-- The `FileLogger` struct.  `logFile *os.File` is modelled as
`handle : Option Nat` (`none` = nil pointer) plus a freshness counter
`nextHandle`; the `log.Logger` value `lg` is modelled by the generation
counter `lgGen`, bumped each time `log.New` rebuilds it.  The cosmetic
log-line prefix string is not modelled. -/
structure LoggerState where
  splitType : SplitType
  fileDir : String
  fileName : String
  suffix : Nat
  fileCount : Nat
  fileSize : Nat
  date : GoTime
  handle : Option Nat
  nextHandle : Nat
  lgGen : Nat
deriving DecidableEq, Repr

/-- A log line emitted through `lg.Printf`, tagged with the generation of
the line-writer that carried it. -/
abbrev LogLine := Nat × String

/-- `isMustSplit`.  Size mode: `f.fileCount > 1 && fileSize(logFile) >=
f.fileSize`.  Daily mode: today's truncated date is strictly after
`f.date`. -/
def isMustSplit (f : LoggerState) (fs : FS) (now : GoTime) : Bool :=
  match f.splitType with
  | .size =>
      let logFile := joinFilePath f.fileDir f.fileName
      decide (1 < f.fileCount) && decide (f.fileSize ≤ fileSize fs logFile)
  | .daily =>
      (truncateToDay now).after f.date

/-- `split`.  Returns `none` when the Go code would panic (the integer
modulo `f.suffix % f.fileCount` with `fileCount = 0`); otherwise the new
logger state, the new file system, and the log lines emitted.
`renameFails` injects a failure of the `os.Rename` call. -/
def split (f : LoggerState) (fs : FS) (now : GoTime) (renameFails : Bool) :
    Option (LoggerState × FS × List LogLine) :=
  let logFile := joinFilePath f.fileDir f.fileName
  match f.splitType with
  | .size =>
      if f.fileCount = 0 then none
      else
        let s := f.suffix % f.fileCount + 1
        let logFileBak := logFile ++ "." ++ toString s
        let fs1 := if isExist fs logFileBak then removeFile fs logFileBak else fs
        let fs2 := if renameFails then fs1 else renameFile fs1 logFile logFileBak
        let fs3 := createFile fs2 logFile
        some ({ f with suffix := s, handle := some f.nextHandle,
                       nextHandle := f.nextHandle + 1, lgGen := f.lgGen + 1 },
              fs3, [])
  | .daily =>
      let logFileBak := logFile ++ "." ++ toString f.date.day
      if !isExist fs logFileBak && isMustSplit f fs now then
        let out : List LogLine :=
          if renameFails then [(f.lgGen, "FileLogger rename error")] else []
        let fs1 := if renameFails then fs else renameFile fs logFile logFileBak
        let fs2 := createFile fs1 logFile
        some ({ f with date := truncateToDay now, handle := some f.nextHandle,
                       nextHandle := f.nextHandle + 1, lgGen := f.lgGen + 1 },
              fs2, out)
      else
        some (f, fs, [])

/-- The backup-index scan at the top of `initLoggerBySize`, exactly as the
source executes it: the `for i := 1; i <= f.fileCount; i++` loop body ends
in an unconditional `break`, so only `i = 1` is ever examined. -/
def initSuffixScan (fs : FS) (logFile : String) (fileCount : Nat) : Nat :=
  if 1 ≤ fileCount && isExist fs (logFile ++ "." ++ toString 1) then 1 else 0

/-- Modelled from the spec: the intended initial-index scan, per the spec's
words — scan existing backups `fileName.1 .. fileName.fileCount` and take
the highest-numbered one that exists, else 0. -/
def initSuffixScanSpec (fs : FS) (logFile : String) (fileCount : Nat) : Nat :=
  (List.range' 1 fileCount).foldl
    (fun acc i => if isExist fs (logFile ++ "." ++ toString i) then i else acc) 0

/-- `initLoggerBySize`: run the backup-index scan, then either open the
active file in append mode (when no rotation is due) or rotate at once. -/
def initLoggerBySize (f : LoggerState) (fs : FS) (now : GoTime) :
    Option (LoggerState × FS × List LogLine) :=
  let logFile := joinFilePath f.fileDir f.fileName
  let f1 := { f with suffix := initSuffixScan fs logFile f.fileCount }
  if !isMustSplit f1 fs now then
    some ({ f1 with handle := some f1.nextHandle,
                    nextHandle := f1.nextHandle + 1, lgGen := f1.lgGen + 1 },
          openAppendCreate fs logFile, [])
  else
    split f1 fs now false

/-- `initLoggerByDaily`: record today's truncated date, then either open
the active file in append mode or rotate at once. -/
def initLoggerByDaily (f : LoggerState) (fs : FS) (now : GoTime) :
    Option (LoggerState × FS × List LogLine) :=
  let logFile := joinFilePath f.fileDir f.fileName
  let f1 := { f with date := truncateToDay now }
  if !isMustSplit f1 fs now then
    some ({ f1 with handle := some f1.nextHandle,
                    nextHandle := f1.nextHandle + 1, lgGen := f1.lgGen + 1 },
          openAppendCreate fs logFile, [])
  else
    split f1 fs now false

/-- `initLogger`: dispatch on the split type. -/
def initLogger (f : LoggerState) (fs : FS) (now : GoTime) :
    Option (LoggerState × FS × List LogLine) :=
  match f.splitType with
  | .size => initLoggerBySize f fs now
  | .daily => initLoggerByDaily f fs now

/-- The struct literal built by `NewSizeLogger` before `initLogger` runs:
`fileSize` is the given count multiplied by the unit. -/
def mkSizeLogger (fileDir fileName : String) (fileCount : Nat)
    (sz : Nat) (unit : Nat) : LoggerState :=
  { splitType := .size, fileDir := fileDir, fileName := fileName,
    suffix := 0, fileCount := fileCount, fileSize := sz * unit,
    date := ⟨0, 0⟩, handle := none, nextHandle := 0, lgGen := 0 }

/-- `NewSizeLogger`: build the struct then run `initLogger`. -/
def NewSizeLogger (fileDir fileName : String) (fileCount : Nat)
    (sz : Nat) (unit : Nat) (fs : FS) (now : GoTime) :
    Option (LoggerState × FS × List LogLine) :=
  initLogger (mkSizeLogger fileDir fileName fileCount sz unit) fs now

/-- `fileCheck`: evaluate `isMustSplit`; when due, take the write lock and
`split`.  The deferred `recover` turns any panic raised in the body (a
panic from `split`, modelled by `none`, or an injected fault entering the
body) into one log line on the current line-writer, leaving the state as it
was.  `fault = some msg` injects such a panic at the top of the body. -/
def fileCheck (f : LoggerState) (fs : FS) (now : GoTime)
    (renameFails : Bool) (fault : Option String) :
    LoggerState × FS × List LogLine :=
  match fault with
  | some msg => (f, fs, [(f.lgGen, "FileLogger catch panic in fileCheck: " ++ msg)])
  | none =>
      if isMustSplit f fs now then
        match split f fs now renameFails with
        | some r => r
        | none => (f, fs, [(f.lgGen, "FileLogger catch panic in fileCheck: divide by zero")])
      else (f, fs, [])

/-- Lock and policy events observable in one `fileCheck` call, used to
state the order the source performs them in. -/
inductive Event where
  | lockW : Event
  | unlockW : Event
  | policyCheck : Bool → Event
  | splitCall : Event
deriving DecidableEq, Repr

/-- The event trace of one `fileCheck` call, exactly as the source is
ordered: `isMustSplit` is evaluated first, outside the lock; only when it
returns true are `mu.Lock()`, `split()` and the deferred `mu.Unlock()`
performed. -/
def fileCheckTrace (f : LoggerState) (fs : FS) (now : GoTime) : List Event :=
  if isMustSplit f fs now then
    [.policyCheck true, .lockW, .splitCall, .unlockW]
  else
    [.policyCheck false]

/-- Modelled from the spec: the order the spec describes for
`checkAndRotate` — acquire the write lock first, re-evaluate the policy
under the lock, and call the rotation routine only if it returns true. -/
def fileCheckSpecTrace (f : LoggerState) (fs : FS) (now : GoTime) : List Event :=
  [.lockW, .policyCheck (isMustSplit f fs now)]
    ++ (if isMustSplit f fs now then [.splitCall] else []) ++ [.unlockW]

/-- One monitor tick environment: the wall clock at the tick, whether the
rename syscall would fail, and an injected panic for the tick's
`fileCheck` body. -/
structure TickEnv where
  now : GoTime
  renameFails : Bool
  fault : Option String
deriving Repr

/-- One tick of `fileMonitor`'s loop: the ticker fires and `fileCheck`
runs; output lines accumulate. -/
def monitorTick (e : TickEnv) : LoggerState × FS × List LogLine →
    LoggerState × FS × List LogLine :=
  fun st =>
    let r := fileCheck st.1 st.2.1 e.now e.renameFails e.fault
    (r.1, r.2.1, st.2.2 ++ r.2.2)

/-- `fileMonitor`'s loop run over a finite prefix of tick environments:
every tick performs `fileCheck`, no panic escapes, and the loop goes on to
the next tick. -/
def fileMonitorRun (envs : List TickEnv) (f : LoggerState) (fs : FS) :
    LoggerState × FS × List LogLine :=
  envs.foldl (fun st e => monitorTick e st) (f, fs, [])

/-- The ticker interval of `fileMonitor`, in seconds: `logScan :=
DEFAULT_LOG_SCAN`, passed to `time.NewTicker` as a count of seconds. -/
def monitorIntervalSeconds : Nat := DEFAULT_LOG_SCAN

/-- Iterated successful rotations: `splitIter n` chains `n` calls of
`split` (with the rename succeeding), propagating a panic as `none`. -/
def splitIter : Nat → LoggerState → FS → GoTime → Option (LoggerState × FS)
  | 0, f, fs, _ => some (f, fs)
  | n + 1, f, fs, now =>
      match split f fs now false with
      | some (f', fs', _) => splitIter n f' fs' now
      | none => none

/-! Sample concrete states used by witnesses and counterexamples. -/

/-- A size-mode logger with two backups and a 5-byte threshold. -/
def dSize2 : LoggerState :=
  { splitType := .size, fileDir := "d", fileName := "log", suffix := 0,
    fileCount := 2, fileSize := 5, date := ⟨0, 0⟩, handle := none,
    nextHandle := 0, lgGen := 0 }

/-- A size-mode logger built by `NewSizeLogger` with `fileCount = 0`. -/
def dSize0 : LoggerState := mkSizeLogger "d" "log" 0 5 KB

/-- A size-mode logger with three backups, as in the claimed wrap-around
scenario. -/
def dSize3 : LoggerState :=
  { splitType := .size, fileDir := "d", fileName := "log", suffix := 0,
    fileCount := 3, fileSize := 5, date := ⟨0, 0⟩, handle := some 0,
    nextHandle := 1, lgGen := 1 }

/-- A daily-mode logger whose active file was opened on day 10. -/
def dDaily : LoggerState :=
  { splitType := .daily, fileDir := "d", fileName := "log", suffix := 0,
    fileCount := 0, fileSize := 0, date := ⟨10, 0⟩, handle := some 0,
    nextHandle := 1, lgGen := 1 }

/-- A file system holding a 7-byte active log file. -/
def wFS : FS := ⟨[("d/log", 7)]⟩

/-- The daily logger `dDaily` right after its day-11 rotation. -/
def dDaily2 : LoggerState :=
  { dDaily with date := ⟨11, 0⟩, handle := some 1, nextHandle := 2, lgGen := 2 }

/-- The file system `wFS` right after `dDaily`'s day-11 rotation: the old
bytes moved to the dated backup and a fresh empty active file. -/
def wFS2 : FS := ⟨[("d/log.10", 7), ("d/log", 0)]⟩

/-- A file system holding backups 1, 2 and 3 but no active file. -/
def c3fs : FS := ⟨[("d/log.1", 0), ("d/log.2", 0), ("d/log.3", 0)]⟩

/-! Helper lemmas about the file-system model. -/

theorem find?_append_eq (l₁ l₂ : List (String × Nat)) (p : String × Nat → Bool) :
    (l₁ ++ l₂).find? p = ((l₁.find? p).orElse (fun _ => l₂.find? p)) := by
  induction l₁ with
  | nil => simp [Option.orElse]
  | cons a t ih =>
    by_cases hpa : p a
    · simp [List.find?, hpa, Option.orElse]
    · simp only [List.cons_append, List.find?]
      rw [Bool.not_eq_true] at hpa
      rw [hpa]
      exact ih

theorem find?_filter_ne (l : List (String × Nat)) (p q : String) (h : q ≠ p) :
    (l.filter (fun e => e.1 != p)).find? (fun e => e.1 == q)
      = l.find? (fun e => e.1 == q) := by
  induction l with
  | nil => rfl
  | cons a t ih =>
    by_cases ha : a.1 = p
    · have h1 : (a.1 != p) = false := by simp [ha]
      have hq : (a.1 == q) = false := by
        rw [ha]; exact beq_eq_false_iff_ne.mpr (Ne.symm h)
      simp [List.filter_cons, List.find?_cons, h1, hq, ih]
    · have h1 : (a.1 != p) = true := by simp [ha]
      cases haq : (a.1 == q) with
      | false => simp [List.filter_cons, List.find?_cons, h1, haq, ih]
      | true => simp [List.filter_cons, List.find?_cons, h1, haq]

theorem find?_removeFile_self (fs : FS) (p : String) :
    (removeFile fs p).entries.find? (fun e => e.1 == p) = none := by
  rw [List.find?_eq_none]
  intro x hx
  have := List.of_mem_filter hx
  simp only [bne_iff_ne, ne_eq] at this
  simp [this]

theorem isExist_removeFile_self (fs : FS) (p : String) :
    isExist (removeFile fs p) p = false := by
  unfold isExist
  rw [Bool.eq_false_iff]
  intro hc
  rw [List.any_eq_true] at hc
  obtain ⟨x, hx, hpx⟩ := hc
  have hf := List.of_mem_filter hx
  rw [bne_iff_ne] at hf
  exact hf (by simpa using hpx)

theorem isExist_removeFile_ne (fs : FS) (p q : String) (h : q ≠ p) :
    isExist (removeFile fs p) q = isExist fs q := by
  unfold isExist removeFile
  simp only [List.any_filter]
  congr 1
  funext e
  by_cases he : e.1 = p
  · have hpq : (p == q) = false := beq_eq_false_iff_ne.mpr (Ne.symm h)
    simp [he, hpq]
  · simp [he]

theorem fileSize_removeFile_ne (fs : FS) (p q : String) (h : q ≠ p) :
    fileSize (removeFile fs p) q = fileSize fs q := by
  unfold fileSize removeFile
  rw [find?_filter_ne fs.entries p q h]

theorem isExist_createFile_self (fs : FS) (p : String) :
    isExist (createFile fs p) p = true := by
  unfold isExist createFile
  simp

theorem fileSize_createFile_self (fs : FS) (p : String) :
    fileSize (createFile fs p) p = 0 := by
  unfold fileSize createFile
  rw [show (⟨(removeFile fs p).entries ++ [(p, 0)]⟩ : FS).entries
        = (removeFile fs p).entries ++ [(p, 0)] from rfl]
  rw [find?_append_eq, find?_removeFile_self]
  simp [List.find?, Option.orElse]

theorem isExist_createFile_ne (fs : FS) (p q : String) (h : q ≠ p) :
    isExist (createFile fs p) q = isExist fs q := by
  unfold createFile
  rw [show isExist ⟨(removeFile fs p).entries ++ [(p, 0)]⟩ q
        = (isExist (removeFile fs p) q || isExist (⟨[(p, 0)]⟩ : FS) q) by
      unfold isExist; simp]
  rw [isExist_removeFile_ne fs p q h]
  have : isExist (⟨[(p, 0)]⟩ : FS) q = false := by
    unfold isExist
    simp [beq_eq_false_iff_ne.mpr (fun hpq => h hpq.symm)]
  rw [this, Bool.or_false]

theorem fileSize_createFile_ne (fs : FS) (p q : String) (h : q ≠ p) :
    fileSize (createFile fs p) q = fileSize fs q := by
  unfold fileSize createFile
  rw [show (⟨(removeFile fs p).entries ++ [(p, 0)]⟩ : FS).entries
        = (removeFile fs p).entries ++ [(p, 0)] from rfl]
  rw [find?_append_eq]
  have hne : ((p, 0).1 == q) = false := beq_eq_false_iff_ne.mpr (fun hpq => h hpq.symm)
  have h2 : ([(p, 0)].find? (fun e => e.1 == q)) = none := by simp [List.find?, hne]
  have h1 := find?_filter_ne fs.entries p q h
  unfold removeFile
  rw [show ((⟨fs.entries.filter fun e => e.1 != p⟩ : FS).entries)
        = fs.entries.filter (fun e => e.1 != p) from rfl]
  rw [h1, h2]
  cases hf : fs.entries.find? (fun e => e.1 == q) <;> simp [Option.orElse]

theorem append_dot_ne (a mid b : String) (hm : mid.length ≠ 0) : a ++ mid ++ b ≠ a := by
  intro he
  have h1 : (a ++ mid ++ b).length = a.length := by rw [he]
  rw [String.length_append, String.length_append] at h1
  omega

theorem fileSize_renameFile_dst (fs : FS) (src dst : String)
    (hsrc : isExist fs src = true) (hne : dst ≠ src) :
    fileSize (renameFile fs src dst) dst = fileSize fs src := by
  have hpre : (removeFile (removeFile fs dst) src).entries.find?
      (fun e => e.1 == dst) = none := by
    show ((removeFile fs dst).entries.filter (fun e => e.1 != src)).find?
        (fun e => e.1 == dst) = none
    rw [find?_filter_ne _ src dst hne]
    exact find?_removeFile_self fs dst
  generalize hv : fileSize fs src = v
  unfold renameFile
  rw [hv]
  simp only [hsrc, if_true]
  show (match ((removeFile (removeFile fs dst) src).entries ++ [(dst, v)]).find?
      (fun e => e.1 == dst) with
    | some e => e.2
    | none => 0) = v
  rw [find?_append_eq, hpre]
  simp [List.find?, Option.orElse]

theorem renameFile_src_missing (fs : FS) (src dst : String)
    (hsrc : isExist fs src = false) : renameFile fs src dst = fs := by
  unfold renameFile
  simp [hsrc]

theorem isMustSplit_daily_same_day (g : LoggerState) (fs : FS) (a b : GoTime)
    (hg : g.splitType = .daily) (hd : g.date = truncateToDay a)
    (hab : b.day = a.day) : isMustSplit g fs b = false := by
  simp [isMustSplit, hg, hd, truncateToDay, GoTime.after, hab]

theorem split_daily_noop (g : LoggerState) (fs : FS) (b : GoTime) (rf : Bool)
    (hg : g.splitType = .daily)
    (hcond : (!isExist fs (joinFilePath g.fileDir g.fileName ++ "." ++
        toString g.date.day) && isMustSplit g fs b) = false) :
    split g fs b rf = some (g, fs, []) := by
  simp only [split, hg]
  rw [if_neg (by rw [hcond]; exact Bool.false_ne_true)]

/-! Claim theorems. -/

/-- C1: for every size-mode logger, `isMustSplit` returns true iff
`fileCount > 1` and the active file's current on-disk size is at least the
configured `fileSize` threshold; in particular with `fileCount = 1` it
returns false for every file size, so rotation never occurs. -/
theorem c1_isMustSplit_size (f : LoggerState) (fs : FS) (now : GoTime)
    (h : f.splitType = .size) :
    (isMustSplit f fs now = true ↔
      1 < f.fileCount ∧
        f.fileSize ≤ fileSize fs (joinFilePath f.fileDir f.fileName)) ∧
    (f.fileCount = 1 → isMustSplit f fs now = false) := by
  constructor
  · simp [isMustSplit, h]
  · intro h1
    simp [isMustSplit, h, h1]

/-- Witness for C1 at a concrete logger and file system. -/
theorem c1_isMustSplit_size_witness :
    (isMustSplit dSize2 wFS ⟨0, 0⟩ = true ↔
      1 < dSize2.fileCount ∧
        dSize2.fileSize ≤ fileSize wFS (joinFilePath dSize2.fileDir dSize2.fileName)) ∧
    (dSize2.fileCount = 1 → isMustSplit dSize2 wFS ⟨0, 0⟩ = false) :=
  c1_isMustSplit_size dSize2 wFS ⟨0, 0⟩ rfl

/-- C4: for every daily-mode logger, `isMustSplit` returns true iff today's
calendar date, truncated to day resolution (so every time-of-day within a
day compares equal), is strictly after the stored date. -/
theorem c4_isMustSplit_daily (f : LoggerState) (fs : FS) (now : GoTime)
    (h : f.splitType = .daily) :
    (isMustSplit f fs now = true ↔ f.date.day < now.day) := by
  simp [isMustSplit, h, truncateToDay, GoTime.after]

/-- Witness for C4: day 11 (at a nonzero time-of-day) is strictly after the
stored day 10. -/
theorem c4_isMustSplit_daily_witness :
    isMustSplit dDaily wFS ⟨11, 5⟩ = true ↔ dDaily.date.day < (⟨11, 5⟩ : GoTime).day :=
  c4_isMustSplit_daily dDaily wFS ⟨11, 5⟩ rfl

/-- C9: the size units are exact binary powers of two and `NewSizeLogger`
stores the threshold `fileSize * unit` bytes. -/
theorem c9_units_and_threshold :
    KB = 1024 ∧ MB = 1024 ^ 2 ∧ GB = 1024 ^ 3 ∧ TB = 1024 ^ 4 ∧
    ∀ (dir name : String) (c sz u : Nat),
      (mkSizeLogger dir name c sz u).fileSize = sz * u := by
  refine ⟨by decide, by decide, ?_, ?_, fun dir name c sz u => rfl⟩
  · show 1 <<< (3 * 10) = 1024 ^ 3
    norm_num [Nat.shiftLeft_eq]
  · show 1 <<< (4 * 10) = 1024 ^ 4
    norm_num [Nat.shiftLeft_eq]

/-- C10: with `fileCount ≤ 1` a size-mode logger never rotates:
`isMustSplit` is false, a monitor tick's `fileCheck` is a no-op that never
reaches `split` (so the `suffix % fileCount` modulo is never evaluated
through the check path), and size-mode construction returns normally —
also for `fileCount = 0`, where `split` itself would divide by zero. -/
theorem c10_fileCount_le_one_safe (f : LoggerState) (fs : FS) (now : GoTime)
    (h : f.splitType = .size) (hc : f.fileCount ≤ 1) :
    isMustSplit f fs now = false ∧
    (∀ rf : Bool, fileCheck f fs now rf none = (f, fs, [])) ∧
    Event.splitCall ∉ fileCheckTrace f fs now ∧
    (initLoggerBySize f fs now).isSome = true := by
  have key : ∀ g : LoggerState, g.splitType = .size → g.fileCount ≤ 1 →
      isMustSplit g fs now = false := by
    intro g hg hgc
    have h1 : ¬ 1 < g.fileCount := by omega
    simp [isMustSplit, hg, h1]
  have hm := key f h hc
  refine ⟨hm, ?_, ?_, ?_⟩
  · intro rf
    simp [fileCheck, hm]
  · simp [fileCheckTrace, hm]
  · unfold initLoggerBySize
    have hm1 := key
      { f with suffix := initSuffixScan fs (joinFilePath f.fileDir f.fileName) f.fileCount }
      h hc
    simp [hm1]

/-- Witness for C10 at `fileCount = 0`. -/
theorem c10_fileCount_le_one_safe_witness :
    isMustSplit dSize0 wFS ⟨0, 0⟩ = false ∧
    (∀ rf : Bool, fileCheck dSize0 wFS ⟨0, 0⟩ rf none = (dSize0, wFS, [])) ∧
    Event.splitCall ∉ fileCheckTrace dSize0 wFS ⟨0, 0⟩ ∧
    (initLoggerBySize dSize0 wFS ⟨0, 0⟩).isSome = true :=
  c10_fileCount_le_one_safe dSize0 wFS ⟨0, 0⟩ rfl (by decide)

/-- C2: in size mode with `fileCount ≥ 1` and `suffix ∈ [0, fileCount]`,
`split` advances `suffix` to `(suffix % fileCount) + 1`, keeping it in
`[1, fileCount]`; the new backup receives the active file's bytes (the
colliding backup at that index is removed first — it is deleted even when
there is no active file to rename), the active file is recreated empty, and
from `suffix = 0` with `fileCount = 3` four successive rotations produce
backup indices 1, 2, 3 and then wrap to 1. -/
theorem c2_split_size_cycle (f : LoggerState) (fs : FS) (now : GoTime)
    (h : f.splitType = .size) (h1 : 1 ≤ f.fileCount) (h2 : f.suffix ≤ f.fileCount) :
    (∃ f' fs' out, split f fs now false = some (f', fs', out) ∧
       f'.suffix = f.suffix % f.fileCount + 1 ∧
       1 ≤ f'.suffix ∧ f'.suffix ≤ f.fileCount ∧
       (isExist fs (joinFilePath f.fileDir f.fileName) = true →
         fileSize fs'
             (joinFilePath f.fileDir f.fileName ++ "." ++ toString f'.suffix)
           = fileSize fs (joinFilePath f.fileDir f.fileName)) ∧
       (isExist fs (joinFilePath f.fileDir f.fileName) = false →
         isExist fs'
             (joinFilePath f.fileDir f.fileName ++ "." ++ toString f'.suffix)
           = false) ∧
       fileSize fs' (joinFilePath f.fileDir f.fileName) = 0) ∧
    ((splitIter 1 dSize3 wFS ⟨0, 0⟩).map (fun r => r.1.suffix) = some 1 ∧
     (splitIter 2 dSize3 wFS ⟨0, 0⟩).map (fun r => r.1.suffix) = some 2 ∧
     (splitIter 3 dSize3 wFS ⟨0, 0⟩).map (fun r => r.1.suffix) = some 3 ∧
     (splitIter 4 dSize3 wFS ⟨0, 0⟩).map (fun r => r.1.suffix) = some 1) := by
  have h0 : ¬ f.fileCount = 0 := by omega
  constructor
  · simp only [split, h]
    rw [if_neg h0]
    refine ⟨_, _, _, rfl, rfl, ?_, ?_, ?_, ?_, ?_⟩
    · show 1 ≤ f.suffix % f.fileCount + 1
      omega
    · show f.suffix % f.fileCount + 1 ≤ f.fileCount
      have := Nat.mod_lt f.suffix (show 0 < f.fileCount by omega)
      omega
    · intro hEx
      show fileSize
          (createFile
            (renameFile
              (if isExist fs (joinFilePath f.fileDir f.fileName ++ "." ++
                  toString (f.suffix % f.fileCount + 1)) = true
               then removeFile fs (joinFilePath f.fileDir f.fileName ++ "." ++
                  toString (f.suffix % f.fileCount + 1))
               else fs)
              (joinFilePath f.fileDir f.fileName)
              (joinFilePath f.fileDir f.fileName ++ "." ++
                  toString (f.suffix % f.fileCount + 1)))
            (joinFilePath f.fileDir f.fileName))
          (joinFilePath f.fileDir f.fileName ++ "." ++
              toString (f.suffix % f.fileCount + 1))
        = fileSize fs (joinFilePath f.fileDir f.fileName)
      have hBL : joinFilePath f.fileDir f.fileName ++ "." ++
          toString (f.suffix % f.fileCount + 1) ≠ joinFilePath f.fileDir f.fileName :=
        append_dot_ne _ "." _ (by decide)
      by_cases hb : isExist fs (joinFilePath f.fileDir f.fileName ++ "." ++
          toString (f.suffix % f.fileCount + 1)) = true
      · rw [if_pos hb]
        rw [fileSize_createFile_ne _ _ _ hBL]
        rw [fileSize_renameFile_dst _ _ _
            (by rw [isExist_removeFile_ne _ _ _ (Ne.symm hBL)]; exact hEx) hBL]
        exact fileSize_removeFile_ne _ _ _ (Ne.symm hBL)
      · rw [if_neg hb]
        rw [fileSize_createFile_ne _ _ _ hBL]
        exact fileSize_renameFile_dst _ _ _ hEx hBL
    · intro hNEx
      show isExist
          (createFile
            (renameFile
              (if isExist fs (joinFilePath f.fileDir f.fileName ++ "." ++
                  toString (f.suffix % f.fileCount + 1)) = true
               then removeFile fs (joinFilePath f.fileDir f.fileName ++ "." ++
                  toString (f.suffix % f.fileCount + 1))
               else fs)
              (joinFilePath f.fileDir f.fileName)
              (joinFilePath f.fileDir f.fileName ++ "." ++
                  toString (f.suffix % f.fileCount + 1)))
            (joinFilePath f.fileDir f.fileName))
          (joinFilePath f.fileDir f.fileName ++ "." ++
              toString (f.suffix % f.fileCount + 1))
        = false
      have hBL : joinFilePath f.fileDir f.fileName ++ "." ++
          toString (f.suffix % f.fileCount + 1) ≠ joinFilePath f.fileDir f.fileName :=
        append_dot_ne _ "." _ (by decide)
      by_cases hb : isExist fs (joinFilePath f.fileDir f.fileName ++ "." ++
          toString (f.suffix % f.fileCount + 1)) = true
      · rw [if_pos hb]
        rw [renameFile_src_missing _ _ _
            (by rw [isExist_removeFile_ne _ _ _ (Ne.symm hBL)]; exact hNEx)]
        rw [isExist_createFile_ne _ _ _ hBL]
        exact isExist_removeFile_self fs _
      · rw [if_neg hb]
        rw [renameFile_src_missing _ _ _ hNEx]
        rw [isExist_createFile_ne _ _ _ hBL]
        exact Bool.not_eq_true _ ▸ hb
    · exact fileSize_createFile_self _ _
  · exact ⟨by decide, by decide, by decide, by decide⟩

/-- Witness for C2: the wrap-around logger with three backups. -/
theorem c2_split_size_cycle_witness :
    (∃ f' fs' out, split dSize3 wFS ⟨0, 0⟩ false = some (f', fs', out) ∧
       f'.suffix = dSize3.suffix % dSize3.fileCount + 1 ∧
       1 ≤ f'.suffix ∧ f'.suffix ≤ dSize3.fileCount ∧
       (isExist wFS (joinFilePath dSize3.fileDir dSize3.fileName) = true →
         fileSize fs'
             (joinFilePath dSize3.fileDir dSize3.fileName ++ "." ++ toString f'.suffix)
           = fileSize wFS (joinFilePath dSize3.fileDir dSize3.fileName)) ∧
       (isExist wFS (joinFilePath dSize3.fileDir dSize3.fileName) = false →
         isExist fs'
             (joinFilePath dSize3.fileDir dSize3.fileName ++ "." ++ toString f'.suffix)
           = false) ∧
       fileSize fs' (joinFilePath dSize3.fileDir dSize3.fileName) = 0) ∧
    ((splitIter 1 dSize3 wFS ⟨0, 0⟩).map (fun r => r.1.suffix) = some 1 ∧
     (splitIter 2 dSize3 wFS ⟨0, 0⟩).map (fun r => r.1.suffix) = some 2 ∧
     (splitIter 3 dSize3 wFS ⟨0, 0⟩).map (fun r => r.1.suffix) = some 3 ∧
     (splitIter 4 dSize3 wFS ⟨0, 0⟩).map (fun r => r.1.suffix) = some 1) :=
  c2_split_size_cycle dSize3 wFS ⟨0, 0⟩ rfl (by decide) (by decide)

/-- C3: the initial-index scan in `initLoggerBySize` does not find the
highest-numbered existing backup: the loop body ends in an unconditional
`break`, so only `fileName.1` is examined.  Against a directory holding
backups 1, 2 and 3 with `fileCount = 3`, construction sets `suffix` to 1
while the spec's scan (take the highest existing index) yields 3. -/
theorem c3_initLoggerBySize_scan_bug :
    (initLoggerBySize (mkSizeLogger "d" "log" 3 5 KB) c3fs ⟨0, 0⟩).map
        (fun r => r.1.suffix) = some 1 ∧
    initSuffixScanSpec c3fs (joinFilePath "d" "log") 3 = 3 ∧
    initSuffixScan c3fs (joinFilePath "d" "log") 3 = 1 := by
  refine ⟨?_, by decide, by decide⟩
  decide

/-- C5: daily-mode rotation is idempotent within a day: after any call to
`split` (whether it rotated or not), a second call on the same calendar day
returns the state, the file system and the log output unchanged — no file
is closed, renamed or created and the stored date, handle and line-writer
are untouched. -/
theorem c5_split_daily_idempotent (f f1 : LoggerState) (fs fs1 : FS)
    (now now2 : GoTime) (rf rf2 : Bool) (out : List LogLine)
    (h : f.splitType = .daily) (hday : now2.day = now.day)
    (hs : split f fs now rf = some (f1, fs1, out)) :
    split f1 fs1 now2 rf2 = some (f1, fs1, []) := by
  simp only [split, h] at hs
  by_cases hc : (!isExist fs (joinFilePath f.fileDir f.fileName ++ "." ++
      toString f.date.day) && isMustSplit f fs now) = true
  · rw [if_pos hc] at hs
    simp only [Option.some.injEq, Prod.mk.injEq] at hs
    obtain ⟨hf, hfs, -⟩ := hs
    have hg1 : f1.splitType = .daily := by rw [← hf]
    have hd1 : f1.date = truncateToDay now := by rw [← hf]
    apply split_daily_noop f1 fs1 now2 rf2 hg1
    rw [isMustSplit_daily_same_day f1 fs1 now now2 hg1 hd1 hday]
    exact Bool.and_false _
  · rw [if_neg hc] at hs
    simp only [Option.some.injEq, Prod.mk.injEq] at hs
    obtain ⟨hf, hfs, -⟩ := hs
    subst hf
    subst hfs
    have hc' : (!isExist fs (joinFilePath f.fileDir f.fileName ++ "." ++
        toString f.date.day) && isMustSplit f fs now) = false := by
      revert hc
      cases (!isExist fs (joinFilePath f.fileDir f.fileName ++ "." ++
          toString f.date.day) && isMustSplit f fs now) <;> simp
    apply split_daily_noop f fs now2 rf2 h
    cases hA : isExist fs (joinFilePath f.fileDir f.fileName ++ "." ++
        toString f.date.day) with
    | true => rfl
    | false =>
        rw [hA] at hc'
        simp only [Bool.not_false, Bool.true_and] at hc'
        have hM2 : isMustSplit f fs now2 = false := by
          cases hM2 : isMustSplit f fs now2 with
          | false => rfl
          | true =>
              simp [isMustSplit, h, truncateToDay, GoTime.after] at hc' hM2
              omega
        rw [hM2, Bool.and_false]

/-- Witness for C5: rotating `dDaily` on day 11 and calling `split` again
later the same day leaves everything unchanged. -/
theorem c5_split_daily_idempotent_witness :
    split dDaily2 wFS2 ⟨11, 30⟩ true = some (dDaily2, wFS2, []) :=
  c5_split_daily_idempotent dDaily dDaily2 wFS wFS2 ⟨11, 0⟩ ⟨11, 30⟩ false true []
    rfl rfl (by decide)

/-- C6: when the rename to the dated backup fails during a due daily
rotation, the error is logged through the pre-rotation line-writer (the
old `lgGen`) and the rotation still completes: the stored date advances to
today, a fresh empty active file is created, and the line-writer is
rebuilt (`lgGen` bumped). -/
theorem c6_split_daily_rename_failure (f : LoggerState) (fs : FS) (now : GoTime)
    (h : f.splitType = .daily)
    (hbak : isExist fs (joinFilePath f.fileDir f.fileName ++ "." ++
        toString f.date.day) = false)
    (hdue : isMustSplit f fs now = true) :
    ∃ f' fs', split f fs now true
        = some (f', fs', [(f.lgGen, "FileLogger rename error")]) ∧
      f'.date = truncateToDay now ∧
      f'.lgGen = f.lgGen + 1 ∧
      f'.handle = some f.nextHandle ∧
      isExist fs' (joinFilePath f.fileDir f.fileName) = true ∧
      fileSize fs' (joinFilePath f.fileDir f.fileName) = 0 := by
  simp only [split, h]
  have hc : (!isExist fs (joinFilePath f.fileDir f.fileName ++ "." ++
      toString f.date.day) && isMustSplit f fs now) = true := by
    simp [hbak, hdue]
  rw [if_pos hc]
  exact ⟨_, _, rfl, rfl, rfl, rfl, isExist_createFile_self _ _,
    fileSize_createFile_self _ _⟩

/-- Witness for C6: `dDaily` rotating on day 11 with the rename failing. -/
theorem c6_split_daily_rename_failure_witness :
    ∃ f' fs', split dDaily wFS ⟨11, 0⟩ true
        = some (f', fs', [(dDaily.lgGen, "FileLogger rename error")]) ∧
      f'.date = truncateToDay ⟨11, 0⟩ ∧
      f'.lgGen = dDaily.lgGen + 1 ∧
      f'.handle = some dDaily.nextHandle ∧
      isExist fs' (joinFilePath dDaily.fileDir dDaily.fileName) = true ∧
      fileSize fs' (joinFilePath dDaily.fileDir dDaily.fileName) = 0 :=
  c6_split_daily_rename_failure dDaily wFS ⟨11, 0⟩ rfl (by decide) (by decide)

/-- C7 counterexample: `fileCheck` does not acquire the write lock first —
on a state with no rotation due, its event trace starts with the policy
check (and never takes the lock), differing from the lock-first order. -/
theorem c7_fileCheck_lock_order_cex :
    (fileCheckTrace dDaily wFS ⟨10, 5⟩).head? ≠ some Event.lockW ∧
    fileCheckTrace dDaily wFS ⟨10, 5⟩ ≠ fileCheckSpecTrace dDaily wFS ⟨10, 5⟩ := by
  decide

/-- C7 (amended): `fileCheck` first evaluates the rotation policy, outside
the lock; only when it returns true does it acquire the write lock and call
`split` (under the lock, released afterwards), and `split` is never invoked
when the policy returns false. -/
theorem c7_fileCheck_policy_first (f : LoggerState) (fs : FS) (now : GoTime) :
    (fileCheckTrace f fs now).head?
        = some (Event.policyCheck (isMustSplit f fs now)) ∧
    ((Event.splitCall ∈ fileCheckTrace f fs now) ↔ isMustSplit f fs now = true) ∧
    ((Event.lockW ∈ fileCheckTrace f fs now) ↔ isMustSplit f fs now = true) ∧
    fileCheckTrace f fs now =
      (if isMustSplit f fs now then
        [Event.policyCheck true, Event.lockW, Event.splitCall, Event.unlockW]
      else [Event.policyCheck false]) := by
  cases hm : isMustSplit f fs now <;> simp [fileCheckTrace, hm]

/-- C8: the monitor ticks every `DEFAULT_LOG_SCAN = 60` seconds; after any
finite prefix of ticks — faulty or not — the next tick still runs
`fileCheck`; and a panic inside a tick's `fileCheck` is recovered, logged
through the logger's current line-writer, and leaves the state intact, so
the loop keeps ticking. -/
theorem c8_monitor_resilient :
    monitorIntervalSeconds = 60 ∧
    (∀ (envs : List TickEnv) (e : TickEnv) (f : LoggerState) (fs : FS),
      fileMonitorRun (envs ++ [e]) f fs = monitorTick e (fileMonitorRun envs f fs)) ∧
    (∀ (f : LoggerState) (fs : FS) (now : GoTime) (rf : Bool) (msg : String),
      fileCheck f fs now rf (some msg)
        = (f, fs, [(f.lgGen, "FileLogger catch panic in fileCheck: " ++ msg)])) := by
  refine ⟨rfl, ?_, fun f fs now rf msg => rfl⟩
  intro envs e f fs
  unfold fileMonitorRun
  rw [List.foldl_append]
  rfl

end FileLogger
